import Mathlib

/-!
Shallow embedding of the authentication core of the fido2-blueprint
repository, used to check the natural-language specification against the
code.

Sources embedded here:
* `src/server/auth/session.ts` — the iron-session backed challenge/session
  manager (`SessionData`, `createSession`, `isSessionValid`,
  `storeChallenge`, `storeChallengeUsernameless`, `getAndClearChallenge`,
  `getAndClearChallengeUsernameless`);
* `packages/fido2-auth/src/fido2.ts` — the ceremony verification and
  credential CRUD layer (`verifyAndStoreRegistration`,
  `verifyAuthentication`, `deleteCredential`);
* the service layer (`services.ts`: `registerFinish`, `loginFinish`,
  `addPasskeyFinish`, `removeCredential`) and the tRPC routers of the web
  demo (`registerFinish`, `loginFinish`, `addPasskeyFinish` mutations).

Conventions of the embedding:
* The SQLite tables behind drizzle are modelled as lists of rows; `insert`
  appends, `delete where` filters, `update where` maps, `select ... .get()`
  is `List.find?`.
* TypeScript exceptions become `Except`; every stateful operation returns
  its result together with the resulting store/session state, so that the
  state on the error path is explicit (in the source, all writes happen
  after the last `throw` of the happy path unless noted otherwise).
* The external @simplewebauthn/server verification primitives are trusted
  black boxes per the spec; they are modelled as oracle parameters
  (`RegVerifier`, `AuthVerifier`) mapping their inputs to either a thrown
  error message or a verification result. Theorems quantify over all
  oracles / oracle outcomes.
* TypeScript truthiness on optional session fields (`!session.challenge`
  is true for `undefined` and for `""`; `!session.createdAt` is true for
  `undefined` and for `0`) is modelled by `strTruthy` / `intTruthy`.
* Timestamps are `Int` milliseconds (`Date.now()`).
-/

namespace Fido2

/-- TS truthiness of an optional string field: `undefined` and `""` are falsy. -/
def strTruthy : Option String → Bool
  | none => false
  | some s => decide (s ≠ "")

/-- TS truthiness of an optional numeric field: `undefined` and `0` are falsy. -/
def intTruthy : Option Int → Bool
  | none => false
  | some n => decide (n ≠ 0)

/-- The `challengeType` union `"registration" | "authentication"` of
`SessionData` in `session.ts`. -/
inductive CeremonyType
  | registration
  | authentication
deriving DecidableEq

/-- `SessionData` from `session.ts`: the contents of the client-held
iron-session blob.  All fields are optional in the source. -/
structure SessionData where
  userId : Option String := none
  username : Option String := none
  createdAt : Option Int := none
  challenge : Option String := none
  challengeType : Option CeremonyType := none
  pendingUserId : Option String := none
  pendingUsername : Option String := none
deriving DecidableEq

/-- `ABSOLUTE_MAX_AGE_MS = ABSOLUTE_TIMEOUT_HOURS * 60 * 60 * 1000` with the
default `SESSION_ABSOLUTE_TIMEOUT_HOURS = 8` from `session.ts`. -/
def absoluteMaxAgeMs : Int := 8 * 60 * 60 * 1000

/-- `createSession(userId, username)` from `session.ts`: overwrites the
identity fields, stamps `createdAt = Date.now()`, and sets
`session.challenge = undefined; session.challengeType = undefined` before
saving.  (Note: the source does not touch `pendingUserId` /
`pendingUsername`.) -/
def createSession (s : SessionData) (userId username : String) (now : Int) :
    SessionData :=
  { s with
    userId := some userId
    username := some username
    createdAt := some now
    challenge := none
    challengeType := none }

/-- `isSessionValid()` from `session.ts`.  Returns the boolean result
together with the session state afterwards: `some s` when the session blob
is left as it was, `none` when `destroySession()` was called (the
absolute-timeout branch).  `s.createdAt.getD 0` is only read under the
guard that makes `createdAt` truthy, i.e. present and nonzero. -/
def isSessionValid (s : SessionData) (now : Int) : Bool × Option SessionData :=
  if strTruthy s.userId = false ∨ intTruthy s.createdAt = false then
    (false, some s)
  else if now - s.createdAt.getD 0 > absoluteMaxAgeMs then
    (false, none)
  else
    (true, some s)

/-- `storeChallenge(challenge, type, userId, username)` from `session.ts`.
The `type` parameter's TS type is the literal `"registration"`. -/
def storeChallenge (s : SessionData) (challenge userId username : String) :
    SessionData :=
  { s with
    challenge := some challenge
    challengeType := some CeremonyType.registration
    pendingUserId := some userId
    pendingUsername := some username }

/-- `storeChallengeUsernameless(challenge)` from `session.ts`. -/
def storeChallengeUsernameless (s : SessionData) (challenge : String) :
    SessionData :=
  { s with
    challenge := some challenge
    challengeType := some CeremonyType.authentication
    pendingUserId := none
    pendingUsername := none }

/-- `ChallengeData`, the result type of `getAndClearChallenge`. -/
structure ChallengeData where
  challenge : String
  userId : String
  username : String
deriving DecidableEq

/-- `getAndClearChallenge(expectedType)` from `session.ts`.  Returns the
optional challenge data and the session state after the call; on the
`null` path the source returns before mutating, so the session is
unchanged, and on the success path all four challenge fields are cleared
before the single `session.save()`. -/
def getAndClearChallenge (s : SessionData) (expectedType : CeremonyType) :
    Option ChallengeData × SessionData :=
  if strTruthy s.challenge = false ∨ s.challengeType ≠ some expectedType
      ∨ strTruthy s.pendingUserId = false
      ∨ strTruthy s.pendingUsername = false then
    (none, s)
  else
    (some { challenge := s.challenge.getD ""
            userId := s.pendingUserId.getD ""
            username := s.pendingUsername.getD "" },
     { s with
       challenge := none
       challengeType := none
       pendingUserId := none
       pendingUsername := none })

/-- `getAndClearChallengeUsernameless()` from `session.ts`. -/
def getAndClearChallengeUsernameless (s : SessionData) :
    Option String × SessionData :=
  if strTruthy s.challenge = false
      ∨ s.challengeType ≠ some CeremonyType.authentication then
    (none, s)
  else
    (some (s.challenge.getD ""),
     { s with challenge := none, challengeType := none })

/-! ## Credential store (drizzle/SQLite tables from `db/schema.ts`) -/

/-- A row of the `users` table. -/
structure User where
  id : String
  username : String
  displayName : String
  createdAt : Int
  updatedAt : Int
deriving DecidableEq

/-- A row of the `credentials` table.  `publicKey` is an opaque binary blob;
`transports` is the JSON-stringified transports array or SQL `NULL`. -/
structure Credential where
  id : String
  userId : String
  name : String
  publicKey : List Nat
  counter : Nat
  deviceType : String
  backedUp : Bool
  transports : Option String
  createdAt : Int
  lastUsedAt : Option Int
deriving DecidableEq

/-- The persistent store: both tables, rows in insertion order. -/
structure Store where
  users : List User
  credentials : List Credential
deriving DecidableEq

/-- `select from users where username = ? .get()`. -/
def findUserByUsername (st : Store) (username : String) : Option User :=
  st.users.find? (fun u => u.username == username)

/-- `select from users where id = ? .get()`. -/
def findUserById (st : Store) (id : String) : Option User :=
  st.users.find? (fun u => u.id == id)

/-- `select from credentials where id = ? .get()`. -/
def findCredentialById (st : Store) (id : String) : Option Credential :=
  st.credentials.find? (fun c => c.id == id)

/-- `select from credentials where userId = ?` (all rows). -/
def credentialsForUser (st : Store) (userId : String) : List Credential :=
  st.credentials.filter (fun c => c.userId == userId)

/-- `insert into users values (...)`. -/
def insertUser (st : Store) (u : User) : Store :=
  { st with users := st.users ++ [u] }

/-- `delete from users where id = ?`. -/
def deleteUserById (st : Store) (id : String) : Store :=
  { st with users := st.users.filter (fun u => !(u.id == id)) }

/-- `insert into credentials values (...)`. -/
def insertCredential (st : Store) (c : Credential) : Store :=
  { st with credentials := st.credentials ++ [c] }

/-- `delete from credentials where id = ?`. -/
def deleteCredentialById (st : Store) (id : String) : Store :=
  { st with credentials := st.credentials.filter (fun c => !(c.id == id)) }

/-- `update credentials set counter = ?, lastUsedAt = ? where id = ?`
(the store update at the end of `verifyAuthentication`). -/
def updateCredentialCounterAndLastUsed (st : Store) (id : String)
    (newCounter : Nat) (now : Int) : Store :=
  { st with
    credentials := st.credentials.map (fun c =>
      if c.id == id then { c with counter := newCounter, lastUsedAt := some now }
      else c) }

/-! ## Errors

`fido2.ts` throws plain `Error` objects; `JsError` enumerates them by their
message (plus `verifierThrow` for errors thrown inside the external
@simplewebauthn verification primitive, carrying that error's message).
The service layer (`services.ts`) wraps them into `AuthError {code,
message}`; the wrapped original is kept as `cause` since the source reuses
its message. -/

inductive JsError
  | credentialNotFound
  | userNotFound
  | authVerificationFailed
  | regVerificationFailed
  | lastCredential
  | credentialNotOwned
  | verifierThrow (msg : String)
deriving DecidableEq

/-- The TS message of each plain error thrown in `fido2.ts`. -/
def jsMessage : JsError → String
  | .credentialNotFound => "Credential not found"
  | .userNotFound => "User not found"
  | .authVerificationFailed => "Authentication verification failed"
  | .regVerificationFailed => "Registration verification failed"
  | .lastCredential => "Cannot delete the only credential. Add another passkey first."
  | .credentialNotOwned => "Credential not found or does not belong to user"
  | .verifierThrow m => m

/-- The error codes used at `AuthError` throw sites in `services.ts`. -/
inductive AuthErrorCode
  | USERNAME_TAKEN
  | USER_NOT_FOUND
  | CREDENTIAL_NOT_FOUND
  | REGISTRATION_FAILED
  | AUTHENTICATION_FAILED
deriving DecidableEq

/-- An `AuthError(code, message)` from `services.ts`; `cause` is the wrapped
underlying error when the throw site forwards `error.message`. -/
structure AuthError where
  code : AuthErrorCode
  cause : Option JsError
deriving DecidableEq

/-! ## External verification primitives (oracles)

`verifyRegistrationResponse` / `verifyAuthenticationResponse` from
@simplewebauthn/server are trusted external primitives (spec §1).  The
relying-party configuration (origin, rpID) they receive is fixed
per-process, so it is left implicit in the oracle. -/

/-- Result shape of `verifyRegistrationResponse`:
`registrationInfo.credential` data used when storing the credential row. -/
structure RegistrationInfo where
  credentialId : String
  credentialPublicKey : List Nat
  credentialCounter : Nat
  credentialDeviceType : String
  credentialBackedUp : Bool
deriving DecidableEq

/-- `{verified, registrationInfo?}` returned by `verifyRegistrationResponse`. -/
structure RegVerification where
  verified : Bool
  registrationInfo : Option RegistrationInfo
deriving DecidableEq

/-- The part of `RegistrationResponseJSON` the store layer reads:
`response.transports`, already JSON-stringified (or absent). -/
structure RegResponse where
  transports : Option String
deriving DecidableEq

/-- Oracle for `verifyRegistrationResponse(response, expectedChallenge,
expectedOrigin, expectedRPID)`: maps challenge and response to a thrown
error message or a result. -/
def RegVerifier : Type :=
  String → RegResponse → Except String RegVerification

/-- Result shape of `verifyAuthenticationResponse`:
`{verified, authenticationInfo: {newCounter}}`. -/
structure AuthVerification where
  verified : Bool
  newCounter : Nat
deriving DecidableEq

/-- The part of `AuthenticationResponseJSON` the core reads: the credential
id used by the authenticator. -/
structure AuthResponse where
  id : String
deriving DecidableEq

/-- Oracle for `verifyAuthenticationResponse(response, expectedChallenge,
expectedOrigin, expectedRPID, credential)`: receives the bound challenge,
the stored credential row (public key and stored counter) and the
assertion; counter-regression rejection lives inside this primitive. -/
def AuthVerifier : Type :=
  String → Credential → AuthResponse → Except String AuthVerification

/-! ## `packages/fido2-auth/src/fido2.ts` -/

/-- `verifyAndStoreRegistration(db, config, userId, expectedChallenge,
authenticatorResponse)` from `fido2.ts`.  The source throws
`"Registration verification failed"` when `!verification.verified ||
!verification.registrationInfo`; the two tests are split here (same error
either way).  On success it computes the passkey name from the user's
existing credential count and inserts the credential row with the
verification result's data, `createdAt: new Date()`, `lastUsedAt: null`.
The returned store is the table state after the call (unchanged on every
error path — the insert is the only write and follows all throws). -/
def verifyAndStoreRegistration (verify : RegVerifier) (st : Store)
    (userId expectedChallenge : String) (resp : RegResponse) (now : Int) :
    Except JsError RegVerification × Store :=
  match verify expectedChallenge resp with
  | .error m => (.error (.verifierThrow m), st)
  | .ok v =>
    match v.registrationInfo with
    | none => (.error .regVerificationFailed, st)
    | some info =>
      if v.verified = false then (.error .regVerificationFailed, st)
      else
        (.ok v,
         insertCredential st
           { id := info.credentialId
             userId := userId
             name := "Passkey " ++ toString ((credentialsForUser st userId).length + 1)
             publicKey := info.credentialPublicKey
             counter := info.credentialCounter
             deviceType := info.credentialDeviceType
             backedUp := info.credentialBackedUp
             transports := resp.transports
             createdAt := now
             lastUsedAt := none })

/-- `verifyAuthentication(db, config, expectedChallenge,
authenticatorResponse)` from `fido2.ts`: look up the credential by the
assertion's id, look up the owning user, run the external verification,
and only then update `counter` and `lastUsedAt`.  Returns
`{userId, username}` and the table state after the call. -/
def verifyAuthentication (verify : AuthVerifier) (st : Store)
    (expectedChallenge : String) (resp : AuthResponse) (now : Int) :
    Except JsError (String × String) × Store :=
  match findCredentialById st resp.id with
  | none => (.error .credentialNotFound, st)
  | some credential =>
    match findUserById st credential.userId with
    | none => (.error .userNotFound, st)
    | some user =>
      match verify expectedChallenge credential resp with
      | .error m => (.error (.verifierThrow m), st)
      | .ok v =>
        if v.verified = false then (.error .authVerificationFailed, st)
        else
          (.ok (user.id, user.username),
           updateCredentialCounterAndLastUsed st resp.id v.newCounter now)

/-- `deleteCredential(db, userId, credentialId)` from `fido2.ts`: first the
last-credential guard on the caller's credential count, then the ownership
check (`credentials.find(c => c.id === credentialId)` over the caller's own
rows), then the delete. -/
def deleteCredential (st : Store) (userId credentialId : String) :
    Except JsError Unit × Store :=
  let credentials := credentialsForUser st userId
  if credentials.length ≤ 1 then (.error .lastCredential, st)
  else
    match credentials.find? (fun c => c.id == credentialId) with
    | none => (.error .credentialNotFound, st)
    | some _ => (.ok (), deleteCredentialById st credentialId)

/-! ## Service layer (`services.ts`, `packages/fido2-auth`) -/

/-- `registerFinish(db, config, userId, username, challenge, credential)`
from `services.ts`: re-check username uniqueness, insert the User row
first, then verify-and-store; on any verification error delete the
just-inserted user (compensating rollback) and fail
`REGISTRATION_FAILED`. -/
def registerFinish (verify : RegVerifier) (st : Store)
    (userId username challenge : String) (resp : RegResponse) (now : Int) :
    Except AuthError (String × String) × Store :=
  match findUserByUsername st username with
  | some _ => (.error { code := .USERNAME_TAKEN, cause := none }, st)
  | none =>
    match verifyAndStoreRegistration verify
        (insertUser st
          { id := userId
            username := username
            displayName := username
            createdAt := now
            updatedAt := now })
        userId challenge resp now with
    | (.error e, st2) =>
      (.error { code := .REGISTRATION_FAILED, cause := some e },
       deleteUserById st2 userId)
    | (.ok _, st2) => (.ok (userId, username), st2)

/-- `loginFinish(db, config, challenge, credential)` from `services.ts`:
delegate to `verifyAuthentication` and wrap any failure as
`AUTHENTICATION_FAILED`. -/
def loginFinish (verify : AuthVerifier) (st : Store) (challenge : String)
    (resp : AuthResponse) (now : Int) :
    Except AuthError (String × String) × Store :=
  match verifyAuthentication verify st challenge resp now with
  | (.ok r, st1) => (.ok r, st1)
  | (.error e, st1) =>
    (.error { code := .AUTHENTICATION_FAILED, cause := some e }, st1)

/-- `addPasskeyFinish(db, config, userId, challenge, credential)` from
`services.ts`: delegate to `verifyAndStoreRegistration` and wrap any
failure as `REGISTRATION_FAILED`. -/
def addPasskeyFinish (verify : RegVerifier) (st : Store)
    (userId challenge : String) (resp : RegResponse) (now : Int) :
    Except AuthError Unit × Store :=
  match verifyAndStoreRegistration verify st userId challenge resp now with
  | (.ok _, st1) => (.ok (), st1)
  | (.error e, st1) =>
    (.error { code := .REGISTRATION_FAILED, cause := some e }, st1)

/-- `removeCredential(db, userId, credentialId)` from `services.ts`.  The
source rethrows `AuthError`s unchanged and wraps anything else as
`AuthError("CREDENTIAL_NOT_FOUND", error.message)`; `deleteCredential` in
`fido2.ts` throws only plain `Error`s (never `AuthError`), so the rethrow
branch is unreachable and every underlying failure — including the
last-credential error — surfaces under the `CREDENTIAL_NOT_FOUND` code
with the original message. -/
def removeCredential (st : Store) (userId credentialId : String) :
    Except AuthError Unit × Store :=
  match deleteCredential st userId credentialId with
  | (.ok _, st1) => (.ok (), st1)
  | (.error e, st1) =>
    (.error { code := .CREDENTIAL_NOT_FOUND, cause := some e }, st1)

/-! ## tRPC routers of the web demo
(`apps/fido2-web-demo/src/server/trpc/routers/auth.ts`), which compose the
session manager with the verification layer. -/

/-- The tRPC error codes appearing in the embedded mutations. -/
inductive TrpcCode
  | BAD_REQUEST
  | CONFLICT
  | UNAUTHORIZED
deriving DecidableEq

/-- A `TRPCError({code, message})`. -/
structure TrpcError where
  code : TrpcCode
  message : String
deriving DecidableEq

/-- The `registerFinish` mutation of the web demo's auth router: consume
the bound registration challenge (fail if absent), re-check username
uniqueness, insert the User row, verify-and-store with rollback of the
user on failure, and finally `createSession` for the new user. -/
def routerRegisterFinish (verify : RegVerifier) (sess : SessionData)
    (st : Store) (resp : RegResponse) (now : Int) :
    Except TrpcError Unit × SessionData × Store :=
  match getAndClearChallenge sess CeremonyType.registration with
  | (none, s1) =>
    (.error { code := .BAD_REQUEST
              message := "No registration challenge found. Please start over." },
     s1, st)
  | (some cd, s1) =>
    match findUserByUsername st cd.username with
    | some _ =>
      (.error { code := .CONFLICT, message := "Username is already taken" },
       s1, st)
    | none =>
      match verifyAndStoreRegistration verify
          (insertUser st
            { id := cd.userId
              username := cd.username
              displayName := cd.username
              createdAt := now
              updatedAt := now })
          cd.userId cd.challenge resp now with
      | (.error e, st2) =>
        (.error { code := .BAD_REQUEST, message := jsMessage e },
         s1, deleteUserById st2 cd.userId)
      | (.ok _, st2) =>
        (.ok (), createSession s1 cd.userId cd.username now, st2)

/-- The `loginFinish` mutation of the web demo's auth router (usernameless
flow): consume the authentication challenge, verify the assertion, and
`createSession` for the resolved user only inside the success path. -/
def routerLoginFinish (verify : AuthVerifier) (sess : SessionData)
    (st : Store) (resp : AuthResponse) (now : Int) :
    Except TrpcError Unit × SessionData × Store :=
  match getAndClearChallengeUsernameless sess with
  | (none, s1) =>
    (.error { code := .BAD_REQUEST
              message := "No authentication challenge found. Please start over." },
     s1, st)
  | (some challenge, s1) =>
    match verifyAuthentication verify st challenge resp now with
    | (.error e, st1) =>
      (.error { code := .UNAUTHORIZED, message := jsMessage e }, s1, st1)
    | (.ok (userId, username), st1) =>
      (.ok (), createSession s1 userId username now, st1)

/-- The `addPasskeyFinish` mutation of the web demo's profile router:
consume the bound registration challenge, check the challenge's bound
identity against the authenticated caller (`ctxUserId`) before any
verification, then verify-and-store for the caller. -/
def routerAddPasskeyFinish (verify : RegVerifier) (sess : SessionData)
    (st : Store) (ctxUserId : String) (resp : RegResponse) (now : Int) :
    Except TrpcError Unit × SessionData × Store :=
  match getAndClearChallenge sess CeremonyType.registration with
  | (none, s1) =>
    (.error { code := .BAD_REQUEST
              message := "No registration challenge found. Please start over." },
     s1, st)
  | (some cd, s1) =>
    if cd.userId ≠ ctxUserId then
      (.error { code := .BAD_REQUEST
                message := "Challenge was not issued for this user. Please start over." },
       s1, st)
    else
      match verifyAndStoreRegistration verify st ctxUserId cd.challenge resp now with
      | (.error e, st1) =>
        (.error { code := .BAD_REQUEST, message := jsMessage e }, s1, st1)
      | (.ok _, st1) => (.ok (), s1, st1)

/-! ## Concrete instances used by witnesses and counterexamples -/

/-- A registered user. -/
def aliceUser : User :=
  { id := "u1", username := "alice", displayName := "alice",
    createdAt := 0, updatedAt := 0 }

/-- alice's first credential. -/
def aliceCred : Credential :=
  { id := "c1", userId := "u1", name := "Passkey 1", publicKey := [1],
    counter := 5, deviceType := "singleDevice", backedUp := false,
    transports := none, createdAt := 0, lastUsedAt := none }

/-- alice's second credential. -/
def aliceCred2 : Credential :=
  { id := "c2", userId := "u1", name := "Passkey 2", publicKey := [2],
    counter := 0, deviceType := "multiDevice", backedUp := true,
    transports := none, createdAt := 1, lastUsedAt := none }

/-- A store where alice owns exactly one credential. -/
def soleCredStore : Store :=
  { users := [aliceUser], credentials := [aliceCred] }

/-- A store where alice owns two credentials. -/
def twoCredStore : Store :=
  { users := [aliceUser], credentials := [aliceCred, aliceCred2] }

/-- A session carrying leftover pending-identity fields from an unconsumed
ceremony. -/
def staleSession : SessionData :=
  { pendingUserId := some "stale-user", pendingUsername := some "stale-name" }

/-- A session whose bound registration challenge belongs to a different
user than the caller. -/
def mismatchSession : SessionData :=
  { challenge := some "ch", challengeType := some CeremonyType.registration,
    pendingUserId := some "intruder", pendingUsername := some "eve" }

/-- A registration verifier outcome with `verified: false` (e.g. tampered
attestation or challenge mismatch). -/
def rejectRegVerifier : RegVerifier :=
  fun _ _ => Except.ok { verified := false, registrationInfo := none }

/-- An authentication verifier outcome with `verified: false` (e.g.
tampered signature, wrong origin/RP, or counter regression). -/
def rejectAuthVerifier : AuthVerifier :=
  fun _ _ _ => Except.ok { verified := false, newCounter := 0 }

/-! ## Helper lemmas -/

/-- The rejecting registration verifier never reports a verified result. -/
theorem rejectRegVerifier_fails (c : String) (r : RegResponse) :
    ∀ v, rejectRegVerifier c r = Except.ok v →
      v.verified = false ∨ v.registrationInfo = none := by
  intro v hv
  simp only [rejectRegVerifier, Except.ok.injEq] at hv
  subst hv
  exact Or.inl rfl

/-- The rejecting authentication verifier never reports a verified result. -/
theorem rejectAuthVerifier_fails (c : String) (cr : Credential) (r : AuthResponse) :
    ∀ v, rejectAuthVerifier c cr r = Except.ok v → v.verified = false := by
  intro v hv
  simp only [rejectAuthVerifier, Except.ok.injEq] at hv
  subst hv
  rfl

/-- Deleting a freshly inserted user by its id restores the user table,
provided no pre-existing row carried that id. -/
theorem deleteUserById_insertUser (st : Store) (u : User) (id : String)
    (hid : u.id = id) (h : ∀ x ∈ st.users, x.id ≠ id) :
    deleteUserById (insertUser st u) id = st := by
  obtain ⟨us, cs⟩ := st
  simp only [insertUser, deleteUserById, List.filter_append, Store.mk.injEq,
    and_true]
  have h1 : us.filter (fun x => !(x.id == id)) = us := by
    apply List.filter_eq_self.mpr
    intro a ha
    simpa using h a ha
  have h2 : [u].filter (fun x => !(x.id == id)) = [] := by
    simp [hid]
  rw [h1, h2, List.append_nil]

/-- If the verification oracle fails (throws, reports `verified: false`,
or returns no `registrationInfo`), `verifyAndStoreRegistration` fails and
leaves the store untouched. -/
theorem verifyAndStoreRegistration_failure (verify : RegVerifier) (st : Store)
    (userId challenge : String) (resp : RegResponse) (now : Int)
    (hfail : ∀ v, verify challenge resp = Except.ok v →
      v.verified = false ∨ v.registrationInfo = none) :
    ∃ e, verifyAndStoreRegistration verify st userId challenge resp now
      = (Except.error e, st) := by
  unfold verifyAndStoreRegistration
  split
  next m _ => exact ⟨JsError.verifierThrow m, rfl⟩
  next v hv =>
    split
    next => exact ⟨JsError.regVerificationFailed, rfl⟩
    next info hi =>
      rcases hfail v hv with hb | hn
      · rw [if_pos hb]
        exact ⟨JsError.regVerificationFailed, rfl⟩
      · rw [hi] at hn
        simp at hn

/-- If the verification oracle fails (throws or reports `verified: false`)
on a credential/user pair present in the store, `verifyAuthentication`
fails and leaves the store untouched. -/
theorem verifyAuthentication_failure (verify : AuthVerifier) (st : Store)
    (challenge : String) (resp : AuthResponse) (now : Int)
    (cred : Credential) (user : User)
    (hcred : findCredentialById st resp.id = some cred)
    (huser : findUserById st cred.userId = some user)
    (hfail : ∀ v, verify challenge cred resp = Except.ok v → v.verified = false) :
    ∃ e, verifyAuthentication verify st challenge resp now
      = (Except.error e, st) := by
  unfold verifyAuthentication
  split
  next hnone => rw [hcred] at hnone; cases hnone
  next credential hsome =>
    rw [hcred] at hsome
    injection hsome with hc
    subst hc
    split
    next hnone => rw [huser] at hnone; cases hnone
    next user hu =>
      split
      next m _ => exact ⟨JsError.verifierThrow m, rfl⟩
      next v hv =>
        rw [if_pos (hfail v hv)]
        exact ⟨JsError.authVerificationFailed, rfl⟩

/-! ## Claim theorems -/

/-- C9 (counterexample): `createSession` does not clear the bound pending
identity.  On a session carrying leftover `pendingUserId` /
`pendingUsername` from an unconsumed ceremony, both fields survive session
creation, contradicting the claim that all challenge fields including the
bound identity are cleared. -/
theorem createSession_pending_identity_survives :
    (createSession staleSession "u1" "alice" 1000).pendingUserId = some "stale-user"
    ∧ (createSession staleSession "u1" "alice" 1000).pendingUsername = some "stale-name" :=
  ⟨rfl, rfl⟩

/-- C9 (amended): `createSession(userId, username)` overwrites the session
to `{userId, username, createdAt: now}` and clears the challenge and
ceremony-type fields, but leaves the bound pending identity
(`pendingUserId`/`pendingUsername`) untouched. -/
theorem createSession_overwrites (s : SessionData) (userId username : String)
    (now : Int) :
    createSession s userId username now
      = { userId := some userId
          username := some username
          createdAt := some now
          challenge := none
          challengeType := none
          pendingUserId := s.pendingUserId
          pendingUsername := s.pendingUsername } :=
  rfl

/-- C4: `isSessionValid` fails closed: it returns `false` when `userId` or
`createdAt` is absent (leaving the session unchanged), returns `false` and
destroys the session when the absolute maximum age is exceeded, and in
every other case — including the `true` case — leaves the session
unchanged; destruction happens only on absolute-timeout detection. -/
theorem isSessionValid_fails_closed (s : SessionData) (now : Int) :
    ((s.userId = none ∨ s.createdAt = none) →
      isSessionValid s now = (false, some s))
    ∧ (∀ t : Int, s.createdAt = some t → strTruthy s.userId = true → t ≠ 0 →
        now - t > absoluteMaxAgeMs → isSessionValid s now = (false, none))
    ∧ ((isSessionValid s now).2 ≠ some s →
        (isSessionValid s now).1 = false ∧ (isSessionValid s now).2 = none
        ∧ ∃ t : Int, s.createdAt = some t ∧ now - t > absoluteMaxAgeMs) := by
  refine ⟨?_, ?_, ?_⟩
  · rintro (h | h) <;> simp [isSessionValid, h, strTruthy, intTruthy]
  · intro t ht hu ht0 hage
    have hint : intTruthy s.createdAt = true := by
      rw [ht]; simp [intTruthy, ht0]
    unfold isSessionValid
    rw [if_neg, if_pos]
    · rw [ht]; simpa using hage
    · rw [hu, hint]; simp
  · intro hne
    unfold isSessionValid at hne ⊢
    split at hne
    · simp at hne
    · split at hne
      next hg hage =>
        refine ⟨by rw [if_neg hg, if_pos hage], by rw [if_neg hg, if_pos hage], ?_⟩
        rw [not_or] at hg
        obtain ⟨hu, hc⟩ := hg
        have : intTruthy s.createdAt = true := by
          cases h : intTruthy s.createdAt
          · exact absurd h hc
          · rfl
        cases hcc : s.createdAt with
        | none => rw [hcc] at this; simp [intTruthy] at this
        | some t =>
          refine ⟨t, rfl, ?_⟩
          rw [hcc] at hage
          simpa using hage
      next => simp at hne

/-- C4 (witness): a well-formed session older than the absolute maximum
age is reported invalid and destroyed. -/
theorem isSessionValid_fails_closed_witness :
    isSessionValid { userId := some "u1", createdAt := some 1 }
      (absoluteMaxAgeMs + 2) = (false, none) :=
  (isSessionValid_fails_closed { userId := some "u1", createdAt := some 1 }
    (absoluteMaxAgeMs + 2)).2.1 1 rfl (by decide) (by decide) (by decide)

/-- C2: `getAndClearChallenge` has read-once semantics: after one
`storeChallenge` of a (nonempty) challenge with a (nonempty) bound
identity, the first call with matching ceremony type returns the stored
data and clears all four challenge fields in the single resulting session
write; a second call returns `none`; and whenever the challenge is
missing, the ceremony type differs from the expected one, or the bound
identity is missing, the call returns `none` (the function is total — it
never throws) and leaves the session unchanged. -/
theorem getAndClearChallenge_read_once (s : SessionData)
    (c userId username : String) (et : CeremonyType)
    (hc : c ≠ "") (hu : userId ≠ "") (hn : username ≠ "") :
    (getAndClearChallenge (storeChallenge s c userId username)
        CeremonyType.registration
      = (some { challenge := c, userId := userId, username := username },
         { s with challenge := none, challengeType := none,
                  pendingUserId := none, pendingUsername := none }))
    ∧ ((getAndClearChallenge
          (getAndClearChallenge (storeChallenge s c userId username)
            CeremonyType.registration).2
          CeremonyType.registration).1 = none)
    ∧ (∀ s2 : SessionData,
        strTruthy s2.challenge = false ∨ s2.challengeType ≠ some et
          ∨ strTruthy s2.pendingUserId = false
          ∨ strTruthy s2.pendingUsername = false →
        getAndClearChallenge s2 et = (none, s2)) := by
  have hfirst : getAndClearChallenge (storeChallenge s c userId username)
      CeremonyType.registration
      = (some { challenge := c, userId := userId, username := username },
         { s with challenge := none, challengeType := none,
                  pendingUserId := none, pendingUsername := none }) := by
    unfold getAndClearChallenge storeChallenge
    rw [if_neg]
    · rfl
    · simp [strTruthy, hc, hu, hn]
  refine ⟨hfirst, ?_, ?_⟩
  · rw [hfirst]
    unfold getAndClearChallenge
    rw [if_pos]
    exact Or.inl rfl
  · intro s2 h
    unfold getAndClearChallenge
    rw [if_pos h]

/-- C2 (witness): store a challenge into an empty session, read it back
once, and observe the second read returning `none`. -/
theorem getAndClearChallenge_read_once_witness :
    (getAndClearChallenge (storeChallenge {} "ch" "u1" "alice")
        CeremonyType.registration).1
      = some { challenge := "ch", userId := "u1", username := "alice" }
    ∧ (getAndClearChallenge
        (getAndClearChallenge (storeChallenge {} "ch" "u1" "alice")
          CeremonyType.registration).2
        CeremonyType.registration).1 = none := by
  have h := getAndClearChallenge_read_once {} "ch" "u1" "alice"
    CeremonyType.registration (by decide) (by decide) (by decide)
  exact ⟨by rw [h.1], h.2.1⟩

/-- C5: with no bound registration challenge in the session (none stored,
already consumed, wrong ceremony type, or missing bound identity), the web
demo's `registerFinish` fails with the no-challenge error and changes
neither the session nor the store — in particular no User row is
inserted. -/
theorem routerRegisterFinish_no_challenge (verify : RegVerifier)
    (sess : SessionData) (st : Store) (resp : RegResponse) (now : Int)
    (h : strTruthy sess.challenge = false
         ∨ sess.challengeType ≠ some CeremonyType.registration
         ∨ strTruthy sess.pendingUserId = false
         ∨ strTruthy sess.pendingUsername = false) :
    routerRegisterFinish verify sess st resp now
      = (Except.error
          { code := TrpcCode.BAD_REQUEST
            message := "No registration challenge found. Please start over." },
         sess, st) := by
  have hg : getAndClearChallenge sess CeremonyType.registration = (none, sess) := by
    unfold getAndClearChallenge
    rw [if_pos h]
  unfold routerRegisterFinish
  rw [hg]

/-- C5 (witness): `registerFinish` on a fresh session (no prior
`registerStart`) fails with the no-challenge error and leaves the store
unchanged. -/
theorem routerRegisterFinish_no_challenge_witness :
    routerRegisterFinish rejectRegVerifier {} soleCredStore
      { transports := none } 0
      = (Except.error
          { code := TrpcCode.BAD_REQUEST
            message := "No registration challenge found. Please start over." },
         {}, soleCredStore) :=
  routerRegisterFinish_no_challenge rejectRegVerifier {} soleCredStore
    { transports := none } 0 (Or.inl rfl)

/-- C1: when the external assertion verification fails (tampered
signature, challenge/origin/RP mismatch, or counter regression — i.e. the
verifier throws or reports `verified: false`) on a credential and owner
present in the store, the service-layer `loginFinish` raises
`AUTHENTICATION_FAILED` and returns the store unchanged (the matched
credential's `counter` and `lastUsedAt` keep their old values, the update
being reachable only after a verified result), and the web demo's
`loginFinish` mutation fails `UNAUTHORIZED` without establishing a
session: the resulting session keeps its previous `userId`, `username`
and `createdAt`, only the consumed challenge fields being cleared. -/
theorem loginFinish_failure_no_update_no_session (verify : AuthVerifier)
    (st : Store) (sess : SessionData) (challenge : String)
    (resp : AuthResponse) (now : Int) (cred : Credential) (user : User)
    (hcred : findCredentialById st resp.id = some cred)
    (huser : findUserById st cred.userId = some user)
    (hfail : ∀ v, verify challenge cred resp = Except.ok v → v.verified = false)
    (hch : sess.challenge = some challenge) (hne : challenge ≠ "")
    (hty : sess.challengeType = some CeremonyType.authentication) :
    (∃ e, loginFinish verify st challenge resp now
        = (Except.error { code := AuthErrorCode.AUTHENTICATION_FAILED,
                          cause := some e }, st))
    ∧ (∃ e, routerLoginFinish verify sess st resp now
        = (Except.error { code := TrpcCode.UNAUTHORIZED, message := jsMessage e },
           { sess with challenge := none, challengeType := none }, st)) := by
  obtain ⟨e, he⟩ := verifyAuthentication_failure verify st challenge resp now
    cred user hcred huser hfail
  constructor
  · refine ⟨e, ?_⟩
    unfold loginFinish
    rw [he]
  · refine ⟨e, ?_⟩
    have hg : getAndClearChallengeUsernameless sess
        = (some challenge, { sess with challenge := none, challengeType := none }) := by
      unfold getAndClearChallengeUsernameless
      rw [if_neg]
      · rw [hch]
        rfl
      · rw [hch, hty]
        simp [strTruthy, hne]
    unfold routerLoginFinish
    split
    next s1 hnone =>
      rw [hg] at hnone
      simp at hnone
    next ch s1 hsome =>
      rw [hg] at hsome
      injection hsome with h1 h2
      injection h1 with h1
      subst h1
      subst h2
      rw [he]

/-- C1 (witness): a rejected assertion against alice's stored credential
leaves the store untouched, fails `AUTHENTICATION_FAILED` at the service
layer, and fails `UNAUTHORIZED` at the router without creating a
session. -/
theorem loginFinish_failure_no_update_no_session_witness :
    (∃ e, loginFinish rejectAuthVerifier soleCredStore "ch" { id := "c1" } 99
        = (Except.error { code := AuthErrorCode.AUTHENTICATION_FAILED,
                          cause := some e }, soleCredStore))
    ∧ (∃ e, routerLoginFinish rejectAuthVerifier
        { challenge := some "ch",
          challengeType := some CeremonyType.authentication }
        soleCredStore { id := "c1" } 99
        = (Except.error { code := TrpcCode.UNAUTHORIZED, message := jsMessage e },
           { challenge := none, challengeType := none }, soleCredStore)) :=
  loginFinish_failure_no_update_no_session rejectAuthVerifier soleCredStore
    { challenge := some "ch", challengeType := some CeremonyType.authentication }
    "ch" { id := "c1" } 99 aliceCred aliceUser (by decide) (by decide)
    (rejectAuthVerifier_fails "ch" aliceCred { id := "c1" })
    rfl (by decide) rfl

/-- C3: when the cryptographic verification fails during the service-layer
`registerFinish` (for a username not yet taken and a fresh user id), the
just-inserted User row is rolled back by the compensating delete: the call
fails `REGISTRATION_FAILED` and returns the store exactly as it was, so no
user row for that username remains. -/
theorem registerFinish_rollback (verify : RegVerifier) (st : Store)
    (userId username challenge : String) (resp : RegResponse) (now : Int)
    (hname : findUserByUsername st username = none)
    (hfresh : ∀ u ∈ st.users, u.id ≠ userId)
    (hfail : ∀ v, verify challenge resp = Except.ok v →
      v.verified = false ∨ v.registrationInfo = none) :
    (∃ e, registerFinish verify st userId username challenge resp now
        = (Except.error { code := AuthErrorCode.REGISTRATION_FAILED,
                          cause := some e }, st))
    ∧ findUserByUsername
        (registerFinish verify st userId username challenge resp now).2
        username = none := by
  have key : ∃ e, registerFinish verify st userId username challenge resp now
      = (Except.error { code := AuthErrorCode.REGISTRATION_FAILED,
                        cause := some e }, st) := by
    obtain ⟨e, he⟩ := verifyAndStoreRegistration_failure verify
      (insertUser st
        { id := userId, username := username, displayName := username,
          createdAt := now, updatedAt := now })
      userId challenge resp now hfail
    refine ⟨e, ?_⟩
    unfold registerFinish
    split
    next u hsome => rw [hname] at hsome; cases hsome
    next hnone =>
      split
      next e2 st2 heq =>
        rw [he] at heq
        injection heq with h1 h2
        injection h1 with h1
        subst h1
        subst h2
        rw [deleteUserById_insertUser st
          { id := userId, username := username, displayName := username,
            createdAt := now, updatedAt := now } userId rfl hfresh]
      next a st2 heq =>
        rw [he] at heq
        simp at heq
  obtain ⟨e, he⟩ := key
  exact ⟨⟨e, he⟩, by rw [he]; exact hname⟩

/-- C3 (witness): a failed verification for candidate user `bob` rolls the
store back to its previous contents; no `bob` row remains. -/
theorem registerFinish_rollback_witness :
    ∃ e, registerFinish rejectRegVerifier soleCredStore "u9" "bob" "ch"
        { transports := none } 7
      = (Except.error { code := AuthErrorCode.REGISTRATION_FAILED,
                        cause := some e }, soleCredStore) :=
  (registerFinish_rollback rejectRegVerifier soleCredStore "u9" "bob" "ch"
    { transports := none } 7 (by decide) (by decide)
    (rejectRegVerifier_fails "ch" { transports := none })).1

/-- C10: adding a passkey is atomic on error — in the service-layer
`addPasskeyFinish`, whenever the verification oracle fails (throws,
reports `verified: false`, or returns no registration info), the call
raises `REGISTRATION_FAILED` and returns the store exactly as it was: no
partial credential insert and no modification of existing rows. -/
theorem addPasskeyFinish_atomic_on_error (verify : RegVerifier) (st : Store)
    (userId challenge : String) (resp : RegResponse) (now : Int)
    (hfail : ∀ v, verify challenge resp = Except.ok v →
      v.verified = false ∨ v.registrationInfo = none) :
    ∃ e, addPasskeyFinish verify st userId challenge resp now
      = (Except.error { code := AuthErrorCode.REGISTRATION_FAILED,
                        cause := some e }, st) := by
  obtain ⟨e, he⟩ := verifyAndStoreRegistration_failure verify st userId
    challenge resp now hfail
  refine ⟨e, ?_⟩
  unfold addPasskeyFinish
  rw [he]

/-- C10 (witness): a rejected add-passkey verification for alice leaves
her credential table exactly as it was. -/
theorem addPasskeyFinish_atomic_on_error_witness :
    ∃ e, addPasskeyFinish rejectRegVerifier soleCredStore "u1" "ch"
        { transports := none } 3
      = (Except.error { code := AuthErrorCode.REGISTRATION_FAILED,
                        cause := some e }, soleCredStore) :=
  addPasskeyFinish_atomic_on_error rejectRegVerifier soleCredStore "u1" "ch"
    { transports := none } 3 (rejectRegVerifier_fails "ch" { transports := none })

/-- C7: the web demo's `addPasskeyFinish` checks the retrieved challenge's
bound identity against the authenticated caller before any verification or
storage: whenever the bound challenge carries a userId different from the
caller's, the call fails with the mismatch error and the store is
unchanged, for every possible verifier (so no credential is verified or
stored). -/
theorem routerAddPasskeyFinish_identity_mismatch (verify : RegVerifier)
    (sess : SessionData) (st : Store) (ctxUserId : String)
    (resp : RegResponse) (now : Int) (cd : ChallengeData)
    (hcd : (getAndClearChallenge sess CeremonyType.registration).1 = some cd)
    (hne : cd.userId ≠ ctxUserId) :
    routerAddPasskeyFinish verify sess st ctxUserId resp now
      = (Except.error
          { code := TrpcCode.BAD_REQUEST
            message := "Challenge was not issued for this user. Please start over." },
         (getAndClearChallenge sess CeremonyType.registration).2, st) := by
  unfold routerAddPasskeyFinish
  split
  next s1 hnone =>
    rw [hnone] at hcd
    cases hcd
  next cd2 s1 hsome =>
    rw [hsome] at hcd ⊢
    injection hcd with hcd
    subst hcd
    rw [if_pos hne]

/-- C7 (witness): a challenge bound to a different user is rejected with
the mismatch error and alice's store stays unchanged. -/
theorem routerAddPasskeyFinish_identity_mismatch_witness :
    routerAddPasskeyFinish rejectRegVerifier mismatchSession soleCredStore
      "u1" { transports := none } 0
      = (Except.error
          { code := TrpcCode.BAD_REQUEST
            message := "Challenge was not issued for this user. Please start over." },
         (getAndClearChallenge mismatchSession CeremonyType.registration).2,
         soleCredStore) :=
  routerAddPasskeyFinish_identity_mismatch rejectRegVerifier mismatchSession
    soleCredStore "u1" { transports := none } 0
    { challenge := "ch", userId := "intruder", username := "eve" }
    (by decide) (by decide)

/-- C6: the repository's own error taxonomy reserves a last-credential
code, yet on a user's sole credential the service-layer `removeCredential`
surfaces the last-credential failure of `deleteCredential` wrapped under
the `CREDENTIAL_NOT_FOUND` code (the underlying plain error — whose
message is the last-credential message — is never an `AuthError`, so the
rethrow branch cannot fire); the credential row itself remains in the
store. -/
theorem removeCredential_sole_credential_evaluation :
    removeCredential soleCredStore "u1" "c1"
      = (Except.error { code := AuthErrorCode.CREDENTIAL_NOT_FOUND,
                        cause := some JsError.lastCredential },
         soleCredStore)
    ∧ findCredentialById soleCredStore "c1" = some aliceCred := by
  constructor <;> rfl

/-- C8 (counterexample): with alice owning exactly one credential `c1`, a
`deleteCredential` call for the absent id `c2` — a credential not owned by
the caller — fails with the last-credential error, not with
`CredentialNotFound`, contradicting the claim. -/
theorem deleteCredential_precedence_counterexample :
    findCredentialById soleCredStore "c2" = none
    ∧ deleteCredential soleCredStore "u1" "c2"
        = (Except.error JsError.lastCredential, soleCredStore)
    ∧ JsError.lastCredential ≠ JsError.credentialNotFound := by
  refine ⟨rfl, rfl, ?_⟩
  intro h
  cases h

/-- C8 (amended): `deleteCredential` raises the last-credential error
whenever the caller owns at most one credential, regardless of the target
id; only when the caller owns at least two credentials does a target
absent from the caller's credentials fail with `CredentialNotFound`.  Both
failure paths leave the store unchanged. -/
theorem deleteCredential_error_precedence (st : Store)
    (userId credentialId : String) :
    ((credentialsForUser st userId).length ≤ 1 →
      deleteCredential st userId credentialId
        = (Except.error JsError.lastCredential, st))
    ∧ (1 < (credentialsForUser st userId).length →
        (∀ c ∈ credentialsForUser st userId, c.id ≠ credentialId) →
        deleteCredential st userId credentialId
          = (Except.error JsError.credentialNotFound, st)) := by
  constructor
  · intro h
    unfold deleteCredential
    rw [if_pos h]
  · intro hlen habs
    unfold deleteCredential
    rw [if_neg (by omega)]
    have hfind : (credentialsForUser st userId).find?
        (fun c => c.id == credentialId) = none := by
      apply List.find?_eq_none.mpr
      intro c hc
      simpa using habs c hc
    rw [hfind]

/-- C8 (witness): with two owned credentials, deleting an absent id fails
`CredentialNotFound`; with a sole credential, any delete fails with the
last-credential error. -/
theorem deleteCredential_error_precedence_witness :
    deleteCredential twoCredStore "u1" "nope"
      = (Except.error JsError.credentialNotFound, twoCredStore)
    ∧ deleteCredential soleCredStore "u1" "nope"
      = (Except.error JsError.lastCredential, soleCredStore) :=
  ⟨(deleteCredential_error_precedence twoCredStore "u1" "nope").2
      (by decide) (by decide),
   (deleteCredential_error_precedence soleCredStore "u1" "nope").1 (by decide)⟩

end Fido2
